import Mathlib

/-!
Shallow embedding of the ESP32 alert server (`src/app.py`): the geo utility,
the radius policy, the in-memory event state, the SQLite-backed user registry,
the dashboard proximity classifier, and the two ingress handlers
(`/alert` and `/telegram`), together with theorems checking the
natural-language specification against this embedding.

Coordinates and radii are modelled over `ℝ` (the Python code uses floats and
`math` trigonometry); all other data is modelled with executable types.
-/

namespace AlertServer

/-- `math.radians`: degrees to radians, `x * pi / 180`. -/
noncomputable def radians (x : ℝ) : ℝ := x * Real.pi / 180

/-- `math.atan2 y x` with the C/Python quadrant conventions
(`atan2 0 0 = 0`, as in Python). -/
noncomputable def atan2 (y x : ℝ) : ℝ :=
  if 0 < x then Real.arctan (y / x)
  else if x < 0 then
    (if 0 ≤ y then Real.arctan (y / x) + Real.pi else Real.arctan (y / x) - Real.pi)
  else
    (if 0 < y then Real.pi / 2 else if y < 0 then -(Real.pi / 2) else 0)

/-- The `a` term of `haversine_km` in `app.py`:
`sin(dlat/2)**2 + cos(radians(lat1))*cos(radians(lat2))*sin(dlon/2)**2`. -/
noncomputable def haversine_a (lat1 lon1 lat2 lon2 : ℝ) : ℝ :=
  Real.sin (radians (lat2 - lat1) / 2) ^ 2 +
    Real.cos (radians lat1) * Real.cos (radians lat2) *
      Real.sin (radians (lon2 - lon1) / 2) ^ 2

/-- `haversine_km` from `app.py`: `R = 6371.0`, `c = 2*atan2(sqrt(a), sqrt(1-a))`,
result `R * c`. -/
noncomputable def haversine_km (lat1 lon1 lat2 lon2 : ℝ) : ℝ :=
  6371.0 * (2 * atan2 (Real.sqrt (haversine_a lat1 lon1 lat2 lon2))
    (Real.sqrt (1 - haversine_a lat1 lon1 lat2 lon2)))

/-- Environment-derived configuration (`SHARED_SECRET` and the radius
constants of `app.py`). -/
structure Config where
  SHARED_SECRET : String
  DANGER_RADIUS_KM : ℝ
  SMOKE_RADIUS_KM : ℝ
  QUAKE_LIGHT_RADIUS_KM : ℝ
  QUAKE_STRONG_RADIUS_KM : ℝ
  TERROR_RADIUS_KM : ℝ

/-- The default environment values from `app.py`
(`DANGER_RADIUS_KM=1.0`, `SMOKE_RADIUS_KM=0.2`, `QUAKE_LIGHT_RADIUS_KM=35`,
`QUAKE_STRONG_RADIUS_KM=120`, `TERROR_RADIUS_KM=10`, empty shared secret). -/
noncomputable def defaultConfig : Config :=
  { SHARED_SECRET := ""
    DANGER_RADIUS_KM := 1.0
    SMOKE_RADIUS_KM := 0.2
    QUAKE_LIGHT_RADIUS_KM := 35
    QUAKE_STRONG_RADIUS_KM := 120
    TERROR_RADIUS_KM := 10 }

/-- The `raw` field of `LAST_EVENT`: `{}` initially and after reset,
the request body after an `/alert` open, `{"source": "telegram_button"}`
after the Telegram terror button. -/
inductive RawData where
  | empty
  | fromAlert (typeField level status message : Option String)
      (event_lat event_lon : Option ℝ) (device_id device : Option String)
  | telegramButton

/-- The `LAST_EVENT` in-memory record of `app.py`. -/
structure Event where
  active : Bool
  type : Option String
  level : Option String
  lat : Option ℝ
  lon : Option ℝ
  ts : Option String
  device_id : Option String
  raw : RawData
  reported_by : Option String
  reported_by_name : Option String
  reported_ts : Option String
  description : Option String

/-- The event record with every field cleared (the initial value of
`LAST_EVENT` and the result of `reset_event`). -/
def clearedEvent : Event :=
  { active := false
    type := none
    level := none
    lat := none
    lon := none
    ts := none
    device_id := none
    raw := .empty
    reported_by := none
    reported_by_name := none
    reported_ts := none
    description := none }

/-- `reset_event` from `app.py`: sets `active=False` and every other field of
`LAST_EVENT` back to `None`/`{}`. -/
def reset_event (_e : Event) : Event := clearedEvent

/-- `current_radius_km` from `app.py`: 0 when inactive, otherwise a radius
keyed on the event type and level. -/
noncomputable def current_radius_km (cfg : Config) (e : Event) : ℝ :=
  if e.active = false then 0.0
  else if e.type = some "smoke" then cfg.SMOKE_RADIUS_KM
  else if e.type = some "quake" then
    (if e.level = some "strong" then cfg.QUAKE_STRONG_RADIUS_KM
     else cfg.QUAKE_LIGHT_RADIUS_KM)
  else if e.type = some "terror" then cfg.TERROR_RADIUS_KM
  else cfg.DANGER_RADIUS_KM

/-- A row of the `users` SQLite table: `chat_id` (primary key), `name`,
`last_lat`, `last_lon`, `last_loc_ts`, `pending_loc` (integer, default 0). -/
structure User where
  chat_id : String
  name : String
  last_lat : Option ℝ
  last_lon : Option ℝ
  last_loc_ts : Option String
  pending_loc : Nat

/-- `user_exists`: `SELECT 1 FROM users WHERE chat_id=?`. -/
def user_exists (chat_id : String) (users : List User) : Bool :=
  users.any (fun u => u.chat_id = chat_id)

/-- `upsert_user`: `INSERT INTO users(chat_id, name) VALUES(?, ?)
ON CONFLICT(chat_id) DO UPDATE SET name=excluded.name`.  A fresh row has
`NULL` location fields and `pending_loc` at its column default 0. -/
def upsert_user (chat_id name : String) (users : List User) : List User :=
  if user_exists chat_id users then
    users.map (fun u => if u.chat_id = chat_id then { u with name := name } else u)
  else
    users ++ [{ chat_id := chat_id, name := name, last_lat := none,
                last_lon := none, last_loc_ts := none, pending_loc := 0 }]

/-- `set_all_pending`: `UPDATE users SET pending_loc=?` (every row). -/
def set_all_pending (pending : Nat) (users : List User) : List User :=
  users.map (fun u => { u with pending_loc := pending })

/-- `update_location`: `UPDATE users SET last_lat=?, last_lon=?, last_loc_ts=?,
pending_loc=0 WHERE chat_id=?` with `last_loc_ts = now_iso()`. -/
def update_location (chat_id : String) (lat lon : ℝ) (ts : String)
    (users : List User) : List User :=
  users.map (fun u =>
    if u.chat_id = chat_id then
      { u with last_lat := some lat, last_lon := some lon,
               last_loc_ts := some ts, pending_loc := 0 }
    else u)

/-- The classification a user receives on the dashboard: the `danger` and
`safe` buckets carry the displayed distance (`None` rendered as `N/A`). -/
inductive Classification where
  | danger (dist : ℝ)
  | safe (dist : Option ℝ)
  | pending

/-- The per-user body of the dashboard loop in `home` (`app.py` lines
257-272): pending users first, then the safe-by-missing-data test, then the
haversine distance against `current_radius_km`. -/
noncomputable def classifyUser (cfg : Config) (e : Event) (u : User) :
    Classification :=
  if u.pending_loc = 1 then .pending
  else if u.last_lat = none ∨ u.last_lon = none ∨ e.active = false ∨
      e.lat = none ∨ e.lon = none then .safe none
  else
    match u.last_lat, u.last_lon, e.lat, e.lon with
    | some ulat, some ulon, some elat, some elon =>
        let dist := haversine_km ulat ulon elat elon
        if dist ≤ current_radius_km cfg e then .danger dist else .safe (some dist)
    | _, _, _, _ => .safe none

/-- The whole dashboard loop of `home`: partitions the user rows into the
`danger`, `safe` and `pending` lists, in row order. -/
noncomputable def classify_home (cfg : Config) (e : Event) :
    List User → List (User × ℝ) × List (User × Option ℝ) × List User
  | [] => ([], [], [])
  | u :: rest =>
      let r := classify_home cfg e rest
      match classifyUser cfg e u with
      | .pending => (r.1, r.2.1, u :: r.2.2)
      | .safe d => (r.1, (u, d) :: r.2.1, r.2.2)
      | .danger d => ((u, d) :: r.1, r.2.1, r.2.2)

/-- The distinct outbound Telegram messages of `app.py`, abstracted to tags
(`telegram_send` call sites); the danger/safe replies carry the displayed
distance and radius. -/
inductive SendKind where
  | descSaved
  | helloFirstTime
  | helloAgain
  | helpMenu
  | closedByUser
  | backToNormal
  | writeDescPrompt
  | terrorAck
  | locationHint
  | gotEventLocation
  | noActiveEvent
  | noEventOrigin
  | inDangerZone (dist radius : ℝ)
  | outOfDangerZone (dist radius : ℝ)
  | notUnderstood
  | requestLocation
  | normalCleared
  | infoUpdate

/-- One `telegram_send` call: target chat id and the message sent. -/
abbrev Send := String × SendKind

/-- `telegram_broadcast`: one send per registered user, in table order. -/
def telegram_broadcast (users : List User) (k : SendKind) : List Send :=
  users.map (fun u => (u.chat_id, k))

/-- `telegram_broadcast_request_location`: the location-request keyboard sent
to every registered user. -/
def telegram_broadcast_request_location (users : List User) : List Send :=
  telegram_broadcast users .requestLocation

/-- The whole mutable server state: `LAST_EVENT`, the `users` table and the
`PENDING_DESC` set (kept as a duplicate-free list). -/
structure ServerState where
  event : Event
  users : List User
  pendingDesc : List String

/-- The JSON body accepted by POST `/alert`; every field is optional
(`data.get(...)`), and absent/`null`/empty values are `none`. -/
structure AlertBody where
  type : Option String
  level : Option String
  status : Option String
  message : Option String
  event_lat : Option ℝ
  event_lon : Option ℝ
  device_id : Option String
  device : Option String

/-- Python truthiness for an optional string: `None` and `""` are falsy. -/
def truthyStr (o : Option String) : Option String :=
  match o with
  | some s => if s = "" then none else some s
  | none => none

/-- The type/level derivation at the top of `alert`: use `data["type"]` when
truthy, otherwise fall back to the legacy `status`/`message` fields
(`status` must be one of smoke/quake/normal else `unknown`; `message` must be
light/strong else `None`). -/
def alert_event_type_level (b : AlertBody) : String × Option String :=
  match truthyStr b.type with
  | some t => (t, b.level)
  | none =>
      (match b.status with
       | some s => if s = "smoke" ∨ s = "quake" ∨ s = "normal" then s else "unknown"
       | none => "unknown",
       match b.message with
       | some m => if m = "light" ∨ m = "strong" then some m else none
       | none => none)

/-- `HAZARD_TYPES = {"smoke", "quake", "terror"}`. -/
def HAZARD_TYPES : List String := ["smoke", "quake", "terror"]

/-- Response of the `/alert` endpoint: HTTP status plus the JSON body shape
(`{ok: false, error}`, `{ok: true, status: "cleared"}` or
`{ok: true, saved: LAST_EVENT}`). -/
inductive AlertResponse where
  | unauthorized
  | cleared
  | saved (e : Event)

/-- Result of one `/alert` request: HTTP status, body, new state, sends. -/
structure AlertResult where
  status : Nat
  response : AlertResponse
  state : ServerState
  sends : List Send

/-- The POST `/alert` handler of `app.py`.  `xsecret` is the `X-SECRET`
header (absent ↦ compared as `""`), `ts` stands for `now_iso()`. -/
def alert (cfg : Config) (xsecret : Option String) (b : AlertBody)
    (ts : String) (s : ServerState) : AlertResult :=
  if cfg.SHARED_SECRET ≠ "" ∧ xsecret.getD "" ≠ cfg.SHARED_SECRET then
    { status := 401, response := .unauthorized, state := s, sends := [] }
  else
    let tl := alert_event_type_level b
    let event_type := tl.1
    let level := tl.2
    if event_type = "normal" then
      let s1 : ServerState :=
        { s with event := reset_event s.event,
                 users := set_all_pending 0 s.users }
      { status := 200, response := .cleared, state := s1,
        sends := telegram_broadcast s1.users .normalCleared }
    else
      let ev : Event :=
        { active := true
          type := some event_type
          level := level
          lat := b.event_lat
          lon := b.event_lon
          device_id := some ((truthyStr b.device_id).getD
            ((truthyStr b.device).getD "esp32"))
          ts := some ts
          raw := .fromAlert b.type b.level b.status b.message
            b.event_lat b.event_lon b.device_id b.device
          reported_by := some "ESP32"
          reported_by_name := some "ESP32"
          reported_ts := some ts
          description := s.event.description }
      if event_type ∈ HAZARD_TYPES then
        let s1 : ServerState :=
          { s with event := ev, users := set_all_pending 1 s.users }
        { status := 200, response := .saved ev, state := s1,
          sends := telegram_broadcast_request_location s1.users }
      else
        let s1 : ServerState :=
          { s with event := ev, users := set_all_pending 0 s.users }
        { status := 200, response := .saved ev, state := s1,
          sends := telegram_broadcast s1.users .infoUpdate }

/-- Python `str.strip()`: drop leading and trailing whitespace. -/
def py_strip (s : String) : String :=
  String.mk (((s.data.dropWhile Char.isWhitespace).reverse.dropWhile
    Char.isWhitespace).reverse)

/-- Python `str.lower()` (ASCII case folding — the handler only compares
against ASCII command literals). -/
def py_lower (s : String) : String :=
  String.mk (s.data.map Char.toLower)

/-- `normalize_command` from `app.py`. -/
def normalize_command (text : String) : String :=
  let t := py_strip text
  let tl := py_lower t
  if tl = "/start" ∨ tl = "start" ∨ t = "🚀 Start" then "/start"
  else if tl = "/help" ∨ tl = "help" ∨ t = "❓ Help" then "/help"
  else t

/-- `message.chat` of a Telegram update; every key is optional. -/
structure TgChat where
  id : Option Int
  first_name : Option String
  last_name : Option String

/-- `message.location`; the coordinate keys are optional so that
`float(loc["latitude"])` can raise `KeyError` as in the Python code. -/
structure TgLocation where
  latitude : Option ℝ
  longitude : Option ℝ

/-- A Telegram `message` (or `edited_message`) object; `location = some`
models a present, truthy location dict. -/
structure TgMessage where
  chat : TgChat
  text : Option String
  location : Option TgLocation

/-- An inbound Telegram update. -/
structure TgUpdate where
  message : Option TgMessage
  edited_message : Option TgMessage

/-- `chat_id = str(chat.get("id"))`: the string `"None"` when the key is
missing, else the decimal representation. -/
def chatIdOf (c : TgChat) : String :=
  match c.id with
  | some n => toString n
  | none => "None"

/-- The display-name derivation in `telegram_webhook`:
`first`/`last` stripped, joined, stripped again, `"Unknown"` if empty. -/
def displayNameOf (c : TgChat) : String :=
  let first := py_strip (c.first_name.getD "")
  let last := py_strip (c.last_name.getD "")
  let n := py_strip (first ++ (if last ≠ "" then " " ++ last else ""))
  if n = "" then "Unknown" else n

/-- `PENDING_DESC.add`: set insertion into the duplicate-free list. -/
def pendingDescAdd (chat_id : String) (l : List String) : List String :=
  if chat_id ∈ l then l else l ++ [chat_id]

/-- Outcome of the protected body of `telegram_webhook`: either a normal
return (state and sends), or a raised exception together with the state and
sends at the raise point (mutations made before the raise persist). -/
inductive WebhookOutcome where
  | ok (s : ServerState) (sends : List Send)
  | exn (errMsg : String) (s : ServerState) (sends : List Send)

/-- The body of the `try:` block of `telegram_webhook` in `app.py`,
branch by branch.  `ts` stands for `now_iso()`.  The only modelled exception
is the `KeyError` of `float(loc["latitude"])`/`float(loc["longitude"])` on a
truthy location dict missing a coordinate key. -/
noncomputable def telegram_webhook_body (cfg : Config) (update : TgUpdate)
    (ts : String) (s0 : ServerState) : WebhookOutcome :=
  match update.message.or update.edited_message with
  | none => .ok s0 []
  | some msg =>
    let chat_id := chatIdOf msg.chat
    let name := displayNameOf msg.chat
    let text := normalize_command (msg.text.getD "")
    let s := if text ≠ "" then
        { s0 with users := upsert_user chat_id name s0.users } else s0
    if chat_id ∈ s.pendingDesc ∧ text ≠ "" then
      .ok { s with event := { s.event with description := some (py_strip text) },
                   pendingDesc := s.pendingDesc.erase chat_id }
        [(chat_id, .descSaved)]
    else if text = "/start" then
      let first_time := !(user_exists chat_id s.users)
      let s := { s with users := upsert_user chat_id name s.users }
      .ok s [(chat_id, if first_time then .helloFirstTime else .helloAgain)]
    else if text = "/help" then
      .ok s [(chat_id, .helpMenu)]
    else if text = "🔚 סיום אירוע" then
      let s := { s with event := reset_event s.event,
                        users := set_all_pending 0 s.users }
      .ok s (telegram_broadcast s.users .closedByUser ++
             telegram_broadcast s.users .backToNormal)
    else if text = "📝 תיאור אירוע" then
      .ok { s with pendingDesc := pendingDescAdd chat_id s.pendingDesc }
        [(chat_id, .writeDescPrompt)]
    else if text = "🚨 אירוע חריג" then
      let ev : Event :=
        { active := true
          type := some "terror"
          level := some "reported"
          lat := none
          lon := none
          ts := some ts
          device_id := some "telegram"
          raw := .telegramButton
          reported_by := some chat_id
          reported_by_name := some name
          reported_ts := some ts
          description := some "—" }
      let s := { s with event := ev, users := set_all_pending 1 s.users }
      .ok s [(chat_id, .terrorAck)]
    else if text = "📍 שלח מיקום" ∧ msg.location.isNone = true then
      .ok s [(chat_id, .locationHint)]
    else
      match msg.location with
      | some loc =>
        match loc.latitude with
        | none => .exn "latitude" s []
        | some lat =>
        match loc.longitude with
        | none => .exn "longitude" s []
        | some lon =>
          let s := { s with users := update_location chat_id lat lon ts s.users }
          if s.event.active = true ∧ s.event.type = some "terror" ∧
              s.event.lat = none ∧ s.event.reported_by = some chat_id then
            let s := { s with event := { s.event with lat := some lat, lon := some lon } }
            .ok s (telegram_broadcast_request_location s.users ++
                   [(chat_id, .gotEventLocation)])
          else if s.event.active = false then
            .ok s [(chat_id, .noActiveEvent)]
          else
            match s.event.lat, s.event.lon with
            | some elat, some elon =>
                let dist := haversine_km lat lon elat elon
                let radius_km := current_radius_km cfg s.event
                if dist ≤ radius_km then
                  .ok s [(chat_id, .inDangerZone dist radius_km)]
                else
                  .ok s [(chat_id, .outOfDangerZone dist radius_km)]
            | _, _ => .ok s [(chat_id, .noEventOrigin)]
      | none =>
          if text ≠ "" then .ok s [(chat_id, .notUnderstood)]
          else .ok s []

/-- The JSON reply of the `/telegram` endpoint together with its HTTP
status. -/
structure TgReply where
  ok : Bool
  error : Option String
  status : Nat

/-- POST `/telegram`: the `try/except` wrapper — a raised exception is caught
and turned into `{"ok": False, "error": str(e)}` with status 200. -/
noncomputable def telegram_webhook (cfg : Config) (update : TgUpdate)
    (ts : String) (s : ServerState) : TgReply × ServerState × List Send :=
  match telegram_webhook_body cfg update ts s with
  | .ok s1 sends => ({ ok := true, error := none, status := 200 }, s1, sends)
  | .exn e s1 sends => ({ ok := false, error := some e, status := 200 }, s1, sends)

/-- The `a` term of the haversine formula is symmetric in its two points. -/
lemma haversine_a_symm (lat1 lon1 lat2 lon2 : ℝ) :
    haversine_a lat1 lon1 lat2 lon2 = haversine_a lat2 lon2 lat1 lon1 := by
  have hsin : ∀ u v : ℝ,
      Real.sin (radians (u - v) / 2) ^ 2 = Real.sin (radians (v - u) / 2) ^ 2 := by
    intro u v
    have h : radians (u - v) / 2 = -(radians (v - u) / 2) := by
      unfold radians; ring
    rw [h, Real.sin_neg]
    ring
  unfold haversine_a
  rw [hsin lat2 lat1, hsin lon2 lon1]
  ring

/-- C6: the great-circle distance function is symmetric,
`haversine_km a b = haversine_km b a`, and zero on equal points,
`haversine_km a a = 0`. -/
theorem c6_haversine_symm_and_zero :
    (∀ lat1 lon1 lat2 lon2 : ℝ,
      haversine_km lat1 lon1 lat2 lon2 = haversine_km lat2 lon2 lat1 lon1) ∧
    (∀ lat lon : ℝ, haversine_km lat lon lat lon = 0) := by
  constructor
  · intro lat1 lon1 lat2 lon2
    unfold haversine_km
    rw [haversine_a_symm]
  · intro lat lon
    have h0 : haversine_a lat lon lat lon = 0 := by
      unfold haversine_a radians
      simp
    unfold haversine_km
    rw [h0]
    norm_num [atan2, Real.arctan_zero]

/-- C3: the radius policy `current_radius_km` at the default configuration:
0.2 km for smoke, 120 km for strong quakes, 35 km for non-strong quakes,
10 km for terror, 1.0 km fallback for any other active type, and 0 when no
event is active. -/
theorem c3_radius_policy :
    (∀ e : Event, e.active = false →
      current_radius_km defaultConfig e = 0) ∧
    (∀ e : Event, e.active = true → e.type = some "smoke" →
      current_radius_km defaultConfig e = 0.2) ∧
    (∀ e : Event, e.active = true → e.type = some "quake" →
      e.level = some "strong" → current_radius_km defaultConfig e = 120) ∧
    (∀ e : Event, e.active = true → e.type = some "quake" →
      e.level ≠ some "strong" → current_radius_km defaultConfig e = 35) ∧
    (∀ e : Event, e.active = true → e.type = some "terror" →
      current_radius_km defaultConfig e = 10) ∧
    (∀ e : Event, e.active = true → e.type ≠ some "smoke" →
      e.type ≠ some "quake" → e.type ≠ some "terror" →
      current_radius_km defaultConfig e = 1.0) := by
  refine ⟨?_, ?_, ?_, ?_, ?_, ?_⟩
  · intro e h; simp [current_radius_km, h]; norm_num
  · intro e h1 h2; simp [current_radius_km, h1, h2, defaultConfig]
  · intro e h1 h2 h3; simp [current_radius_km, h1, h2, h3, defaultConfig]
  · intro e h1 h2 h3; simp [current_radius_km, h1, h2, h3, defaultConfig]
  · intro e h1 h2; simp [current_radius_km, h1, h2, defaultConfig]
  · intro e h1 h2 h3 h4; simp [current_radius_km, h1, h2, h3, h4, defaultConfig]

/-- Witness for C3: one concrete event per branch of the policy. -/
theorem c3_radius_policy_witness :
    current_radius_km defaultConfig clearedEvent = 0 ∧
    current_radius_km defaultConfig
      { clearedEvent with
        active := true
        type := some "smoke" } = 0.2 ∧
    current_radius_km defaultConfig
      { clearedEvent with
        active := true
        type := some "quake"
        level := some "strong" } = 120 ∧
    current_radius_km defaultConfig
      { clearedEvent with
        active := true
        type := some "quake"
        level := some "light" } = 35 ∧
    current_radius_km defaultConfig
      { clearedEvent with
        active := true
        type := some "terror" } = 10 ∧
    current_radius_km defaultConfig
      { clearedEvent with
        active := true
        type := some "mystery" } = 1.0 :=
  ⟨c3_radius_policy.1 _ rfl,
   c3_radius_policy.2.1 _ rfl rfl,
   c3_radius_policy.2.2.1 _ rfl rfl rfl,
   c3_radius_policy.2.2.2.1 _ rfl rfl (by simp),
   c3_radius_policy.2.2.2.2.1 _ rfl rfl,
   c3_radius_policy.2.2.2.2.2 _ rfl (by simp) (by simp) (by simp)⟩

/-- C1: a user whose pending flag is set is classified `pending`, whatever
the event, the user location or any distance; and in the dashboard partition
such a user always lands in the pending bucket. -/
theorem c1_pending_precedence (cfg : Config) (e : Event) (u : User)
    (hp : u.pending_loc = 1) :
    classifyUser cfg e u = .pending ∧
    ∀ users : List User, u ∈ users →
      u ∈ (classify_home cfg e users).2.2 := by
  have hcls : classifyUser cfg e u = .pending := by
    simp [classifyUser, hp]
  refine ⟨hcls, ?_⟩
  intro users hu
  induction users with
  | nil => cases hu
  | cons a rest ih =>
    rcases List.mem_cons.mp hu with h | h
    · subst h
      simp [classify_home, hcls]
    · have hrest := ih h
      cases hca : classifyUser cfg e a with
      | danger d => simpa [classify_home, hca] using hrest
      | safe d => simpa [classify_home, hca] using hrest
      | pending =>
          simp [classify_home, hca]
          exact Or.inr hrest

/-- Witness for C1: a pending user with no location during no event. -/
theorem c1_pending_precedence_witness :
    classifyUser defaultConfig clearedEvent
      { chat_id := "1", name := "A", last_lat := none, last_lon := none,
        last_loc_ts := none, pending_loc := 1 } = .pending ∧
    ({ chat_id := "1", name := "A", last_lat := none, last_lon := none,
       last_loc_ts := none, pending_loc := 1 } : User) ∈
      (classify_home defaultConfig clearedEvent
        [{ chat_id := "1", name := "A", last_lat := none, last_lon := none,
           last_loc_ts := none, pending_loc := 1 }]).2.2 :=
  ⟨(c1_pending_precedence defaultConfig clearedEvent _ rfl).1,
   (c1_pending_precedence defaultConfig clearedEvent _ rfl).2 _ (by simp)⟩

/-- C2: a non-pending user is `safe` with no distance when the event is
inactive, the user has no recorded location, or the event has no origin;
otherwise the haversine distance decides `danger` (≤ radius) vs `safe`. -/
theorem c2_distance_classification (cfg : Config) (e : Event) (u : User)
    (hp : u.pending_loc = 0) :
    (e.active = false ∨ u.last_lat = none ∨ u.last_lon = none ∨
        e.lat = none ∨ e.lon = none →
      classifyUser cfg e u = .safe none) ∧
    (∀ ulat ulon elat elon : ℝ, u.last_lat = some ulat →
      u.last_lon = some ulon → e.active = true → e.lat = some elat →
      e.lon = some elon →
      classifyUser cfg e u =
        if haversine_km ulat ulon elat elon ≤ current_radius_km cfg e then
          .danger (haversine_km ulat ulon elat elon)
        else .safe (some (haversine_km ulat ulon elat elon))) := by
  have hnp : ¬(u.pending_loc = 1) := by omega
  constructor
  · intro h
    have hcond : u.last_lat = none ∨ u.last_lon = none ∨ e.active = false ∨
        e.lat = none ∨ e.lon = none := by tauto
    unfold classifyUser
    rw [if_neg hnp, if_pos hcond]
  · intro ulat ulon elat elon h1 h2 h3 h4 h5
    have hcond : ¬(u.last_lat = none ∨ u.last_lon = none ∨ e.active = false ∨
        e.lat = none ∨ e.lon = none) := by
      simp [h1, h2, h3, h4, h5]
    unfold classifyUser
    rw [if_neg hnp, if_neg hcond, h1, h2, h4, h5]

/-- Witness for C2: a non-pending user while no event is active is safe with
no distance shown. -/
theorem c2_distance_classification_witness :
    classifyUser defaultConfig clearedEvent
      { chat_id := "1", name := "A", last_lat := some 32, last_lon := some 34.8,
        last_loc_ts := some "t", pending_loc := 0 } = .safe none :=
  (c2_distance_classification defaultConfig clearedEvent _ rfl).1 (Or.inl rfl)

/-- C10: upserting an already-registered chat id keeps the table length,
overwrites only the matching row's name, and leaves every location field,
the pending flag, and every other row untouched. -/
theorem c10_upsert_existing_frame (users : List User) (cid nm : String)
    (hreg : user_exists cid users = true) :
    (upsert_user cid nm users).length = users.length ∧
    ∀ i : ℕ, ∀ u : User, users[i]? = some u →
      ∃ u2 : User, (upsert_user cid nm users)[i]? = some u2 ∧
        u2.chat_id = u.chat_id ∧
        u2.last_lat = u.last_lat ∧
        u2.last_lon = u.last_lon ∧
        u2.last_loc_ts = u.last_loc_ts ∧
        u2.pending_loc = u.pending_loc ∧
        (u.chat_id = cid → u2.name = nm) ∧
        (u.chat_id ≠ cid → u2 = u) := by
  unfold upsert_user
  rw [if_pos hreg]
  refine ⟨List.length_map _ _, ?_⟩
  intro i u hu
  refine ⟨if u.chat_id = cid then { u with name := nm } else u, ?_, ?_⟩
  · rw [List.getElem?_map, hu]; rfl
  · by_cases h : u.chat_id = cid
    · simp [h]
    · simp [h]

/-- Witness for C10: upserting the registered id `"7"` with a new name keeps
the other row and the location/pending data of row `"7"`. -/
theorem c10_upsert_existing_frame_witness :
    user_exists "7"
      [{ chat_id := "7", name := "Old", last_lat := some 32, last_lon := some 34,
         last_loc_ts := some "t", pending_loc := 1 },
       { chat_id := "8", name := "B", last_lat := none, last_lon := none,
         last_loc_ts := none, pending_loc := 0 }] = true ∧
    (∃ u2 : User,
      (upsert_user "7" "New"
        [{ chat_id := "7", name := "Old", last_lat := some 32, last_lon := some 34,
           last_loc_ts := some "t", pending_loc := 1 },
         { chat_id := "8", name := "B", last_lat := none, last_lon := none,
           last_loc_ts := none, pending_loc := 0 }])[0]? = some u2 ∧
      u2.chat_id = "7" ∧
      u2.last_lat = some 32 ∧
      u2.last_lon = some 34 ∧
      u2.last_loc_ts = some "t" ∧
      u2.pending_loc = 1 ∧
      ("7" = "7" → u2.name = "New") ∧
      ("7" ≠ "7" → u2 =
        { chat_id := "7", name := "Old", last_lat := some 32, last_lon := some 34,
          last_loc_ts := some "t", pending_loc := 1 })) :=
  ⟨rfl,
   (c10_upsert_existing_frame
      [{ chat_id := "7", name := "Old", last_lat := some 32, last_lon := some 34,
         last_loc_ts := some "t", pending_loc := 1 },
       { chat_id := "8", name := "B", last_lat := none, last_lon := none,
         last_loc_ts := none, pending_loc := 0 }] "7" "New" rfl).2 0
      { chat_id := "7", name := "Old", last_lat := some 32, last_lon := some 34,
        last_loc_ts := some "t", pending_loc := 1 } rfl⟩

/-- C8: with a non-empty shared secret configured, an `/alert` request whose
`X-SECRET` header (absent read as `""`) differs from the secret is answered
401 with the error body, no state change, and no outbound send. -/
theorem c8_alert_unauthorized (cfg : Config) (xsecret : Option String)
    (b : AlertBody) (ts : String) (s : ServerState)
    (hsec : cfg.SHARED_SECRET ≠ "")
    (hbad : xsecret.getD "" ≠ cfg.SHARED_SECRET) :
    (alert cfg xsecret b ts s).status = 401 ∧
    (alert cfg xsecret b ts s).response = .unauthorized ∧
    (alert cfg xsecret b ts s).state.event = s.event ∧
    (alert cfg xsecret b ts s).state.users = s.users ∧
    (alert cfg xsecret b ts s).sends = [] := by
  unfold alert
  rw [if_pos ⟨hsec, hbad⟩]
  exact ⟨rfl, rfl, rfl, rfl, rfl⟩

/-- Witness for C8: secret `"s3cret"` configured, header absent. -/
theorem c8_alert_unauthorized_witness :
    ({ SHARED_SECRET := "s3cret", DANGER_RADIUS_KM := 1.0,
       SMOKE_RADIUS_KM := 0.2, QUAKE_LIGHT_RADIUS_KM := 35,
       QUAKE_STRONG_RADIUS_KM := 120,
       TERROR_RADIUS_KM := 10 } : Config).SHARED_SECRET ≠ "" ∧
    (alert
      { SHARED_SECRET := "s3cret", DANGER_RADIUS_KM := 1.0,
        SMOKE_RADIUS_KM := 0.2, QUAKE_LIGHT_RADIUS_KM := 35,
        QUAKE_STRONG_RADIUS_KM := 120, TERROR_RADIUS_KM := 10 }
      none
      { type := some "smoke", level := some "strong", status := none,
        message := none, event_lat := none, event_lon := none,
        device_id := none, device := none }
      "t"
      { event := clearedEvent, users := [], pendingDesc := [] }).status = 401 :=
  ⟨by decide,
   (c8_alert_unauthorized _ none _ "t" _ (by decide) (by decide)).1⟩

/-- C5: an `/alert` report whose (possibly legacy-derived) type is `normal`
clears the whole event state, clears every user's pending flag, broadcasts
the return-to-normal message to every registered user, and returns success
with the `cleared` body; no event is left open. -/
theorem c5_normal_report (cfg : Config) (xsecret : Option String)
    (b : AlertBody) (ts : String) (s : ServerState)
    (hauth : ¬(cfg.SHARED_SECRET ≠ "" ∧ xsecret.getD "" ≠ cfg.SHARED_SECRET))
    (hnormal : (alert_event_type_level b).1 = "normal") :
    (alert cfg xsecret b ts s).status = 200 ∧
    (alert cfg xsecret b ts s).response = .cleared ∧
    (alert cfg xsecret b ts s).state.event = clearedEvent ∧
    (alert cfg xsecret b ts s).state.event.active = false ∧
    (alert cfg xsecret b ts s).state.users = set_all_pending 0 s.users ∧
    (∀ u ∈ (alert cfg xsecret b ts s).state.users, u.pending_loc = 0) ∧
    (alert cfg xsecret b ts s).sends.map Prod.fst =
      s.users.map User.chat_id ∧
    (∀ p ∈ (alert cfg xsecret b ts s).sends,
      p.2 = SendKind.normalCleared) := by
  unfold alert
  rw [if_neg hauth, if_pos hnormal]
  refine ⟨rfl, rfl, rfl, rfl, rfl, ?_, ?_, ?_⟩
  · intro u hu
    simp only [set_all_pending, List.mem_map] at hu
    obtain ⟨v, _, hv⟩ := hu
    rw [← hv]
  · simp [telegram_broadcast, set_all_pending, List.map_map, Function.comp]
  · intro p hp
    simp only [telegram_broadcast, List.mem_map] at hp
    obtain ⟨v, _, hv⟩ := hp
    rw [← hv]

/-- Witness for C5: a legacy-format report (`status="normal"`, no `type`)
against a state with an active smoke event and one pending user. -/
theorem c5_normal_report_witness :
    (alert_event_type_level
      { type := none, level := none, status := some "normal",
        message := none, event_lat := none, event_lon := none,
        device_id := none, device := none }).1 = "normal" ∧
    (alert defaultConfig none
      { type := none, level := none, status := some "normal",
        message := none, event_lat := none, event_lon := none,
        device_id := none, device := none }
      "t"
      { event :=
          { clearedEvent with
            active := true
            type := some "smoke"
            level := some "strong" }
        users := [{ chat_id := "7", name := "A", last_lat := some 32,
                    last_lon := some 34, last_loc_ts := some "t0",
                    pending_loc := 1 }]
        pendingDesc := [] }).state.event = clearedEvent ∧
    (alert defaultConfig none
      { type := none, level := none, status := some "normal",
        message := none, event_lat := none, event_lon := none,
        device_id := none, device := none }
      "t"
      { event :=
          { clearedEvent with
            active := true
            type := some "smoke"
            level := some "strong" }
        users := [{ chat_id := "7", name := "A", last_lat := some 32,
                    last_lon := some 34, last_loc_ts := some "t0",
                    pending_loc := 1 }]
        pendingDesc := [] }).sends.map Prod.fst = ["7"] :=
  ⟨rfl,
   (c5_normal_report defaultConfig none _ "t" _
     (by simp [defaultConfig]) (by rfl)).2.2.1,
   (c5_normal_report defaultConfig none _ "t" _
     (by simp [defaultConfig]) (by rfl)).2.2.2.2.2.2.1⟩

/-- C9: the `/telegram` endpoint answers HTTP 200 on every inbound update,
and when the protected body raises, the reply is the `{ok: false, error}`
body — still with status 200, so the exception never reaches the
transport. -/
theorem c9_webhook_always_200 (cfg : Config) (update : TgUpdate)
    (ts : String) (s : ServerState) :
    (telegram_webhook cfg update ts s).1.status = 200 ∧
    (∀ e s1 sends, telegram_webhook_body cfg update ts s = .exn e s1 sends →
      (telegram_webhook cfg update ts s).1.ok = false ∧
      (telegram_webhook cfg update ts s).1.error = some e) := by
  constructor
  · unfold telegram_webhook
    cases hb : telegram_webhook_body cfg update ts s <;> rfl
  · intro e s1 sends h
    unfold telegram_webhook
    rw [h]
    exact ⟨rfl, rfl⟩

/-- Witness for C9: a location payload with no `latitude` key raises the
modelled `KeyError`, and the reply is still 200 with `{ok: false, error}`. -/
theorem c9_webhook_always_200_witness :
    telegram_webhook_body defaultConfig
      { message := some
          { chat := { id := some 5, first_name := some "A", last_name := none }
            text := none
            location := some { latitude := none, longitude := some 34 } }
        edited_message := none }
      "t" { event := clearedEvent, users := [], pendingDesc := [] } =
      .exn "latitude" { event := clearedEvent, users := [], pendingDesc := [] }
        [] ∧
    (telegram_webhook defaultConfig
      { message := some
          { chat := { id := some 5, first_name := some "A", last_name := none }
            text := none
            location := some { latitude := none, longitude := some 34 } }
        edited_message := none }
      "t" { event := clearedEvent, users := [], pendingDesc := [] }).1.status =
      200 ∧
    (telegram_webhook defaultConfig
      { message := some
          { chat := { id := some 5, first_name := some "A", last_name := none }
            text := none
            location := some { latitude := none, longitude := some 34 } }
        edited_message := none }
      "t" { event := clearedEvent, users := [], pendingDesc := [] }).1.ok =
      false ∧
    (telegram_webhook defaultConfig
      { message := some
          { chat := { id := some 5, first_name := some "A", last_name := none }
            text := none
            location := some { latitude := none, longitude := some 34 } }
        edited_message := none }
      "t" { event := clearedEvent, users := [], pendingDesc := [] }).1.error =
      some "latitude" := by
  have h : telegram_webhook_body defaultConfig
      { message := some
          { chat := { id := some 5, first_name := some "A", last_name := none }
            text := none
            location := some { latitude := none, longitude := some 34 } }
        edited_message := none }
      "t" { event := clearedEvent, users := [], pendingDesc := [] } =
      .exn "latitude" { event := clearedEvent, users := [], pendingDesc := [] }
        [] := by rfl
  refine ⟨h, (c9_webhook_always_200 defaultConfig _ "t" _).1, ?_, ?_⟩
  · exact ((c9_webhook_always_200 defaultConfig _ "t" _).2 _ _ _ h).1
  · exact ((c9_webhook_always_200 defaultConfig _ "t" _).2 _ _ _ h).2

/-- C7: on a pure location share (no text), the shared coordinates become the
event origin exactly when the event is active, of type terror, still without
an origin, and the sender is the event's reporter; a share from any other
user, or one arriving once the origin is set, leaves the origin unchanged. -/
theorem c7_terror_origin (cfg : Config) (update : TgUpdate) (msg : TgMessage)
    (ts : String) (s : ServerState) (lat lon : ℝ)
    (hm : update.message = some msg)
    (htext : msg.text = none)
    (hloc : msg.location = some { latitude := some lat, longitude := some lon }) :
    (s.event.active = true → s.event.type = some "terror" →
      s.event.lat = none → s.event.reported_by = some (chatIdOf msg.chat) →
      (telegram_webhook cfg update ts s).2.1.event.lat = some lat ∧
      (telegram_webhook cfg update ts s).2.1.event.lon = some lon) ∧
    (s.event.reported_by ≠ some (chatIdOf msg.chat) ∨ s.event.lat ≠ none →
      (telegram_webhook cfg update ts s).2.1.event.lat = s.event.lat ∧
      (telegram_webhook cfg update ts s).2.1.event.lon = s.event.lon) := by
  have hor : update.message.or update.edited_message = some msg := by
    rw [hm]; rfl
  have hnc : normalize_command "" = "" := rfl
  constructor
  · intro h1 h2 h3 h4
    unfold telegram_webhook telegram_webhook_body
    simp [hor, htext, hnc, hloc, h1, h2, h3, h4]
  · intro hB
    have hncond : ¬(s.event.active = true ∧ s.event.type = some "terror" ∧
        s.event.lat = none ∧
        s.event.reported_by = some (chatIdOf msg.chat)) := by
      rcases hB with h | h
      · intro hc; exact h hc.2.2.2
      · intro hc; exact h hc.2.2.1
    unfold telegram_webhook telegram_webhook_body
    by_cases ha : s.event.active = false
    · simp [hor, htext, hnc, hloc, hncond, ha]
    · rcases hlat : s.event.lat with _ | elat
      · have hrep : s.event.reported_by ≠ some (chatIdOf msg.chat) := by
          rcases hB with h | h
          · exact h
          · exact absurd hlat h
        rcases hlon : s.event.lon with _ | elon <;>
          simp [hor, htext, hnc, hloc, ha, hlat, hlon, hrep]
      · rcases hlon : s.event.lon with _ | elon
        · simp [hor, htext, hnc, hloc, hncond, ha, hlat, hlon]
        · by_cases hd : haversine_km lat lon elat elon ≤
              current_radius_km cfg s.event
          · simp [hor, htext, hnc, hloc, hncond, ha, hlat, hlon, hd]
          · simp [hor, htext, hnc, hloc, hncond, ha, hlat, hlon, hd]

/-- Witness for C7: the reporter of a coordinate-less terror event shares
their location, which becomes the event origin. -/
theorem c7_terror_origin_witness :
    (telegram_webhook defaultConfig
      { message := some
          { chat := { id := none, first_name := some "A", last_name := none }
            text := none
            location := some { latitude := some 32, longitude := some 34.8 } }
        edited_message := none }
      "t"
      { event :=
          { clearedEvent with
            active := true
            type := some "terror"
            level := some "reported"
            reported_by := some "None" }
        users := []
        pendingDesc := [] }).2.1.event.lat = some 32 ∧
    (telegram_webhook defaultConfig
      { message := some
          { chat := { id := none, first_name := some "A", last_name := none }
            text := none
            location := some { latitude := some 32, longitude := some 34.8 } }
        edited_message := none }
      "t"
      { event :=
          { clearedEvent with
            active := true
            type := some "terror"
            level := some "reported"
            reported_by := some "None" }
        users := []
        pendingDesc := [] }).2.1.event.lon = some 34.8 :=
  (c7_terror_origin defaultConfig
    { message := some
        { chat := { id := none, first_name := some "A", last_name := none }
          text := none
          location := some { latitude := some 32, longitude := some 34.8 } }
      edited_message := none }
    { chat := { id := none, first_name := some "A", last_name := none }
      text := none
      location := some { latitude := some 32, longitude := some 34.8 } }
    "t"
    { event :=
        { clearedEvent with
          active := true
          type := some "terror"
          level := some "reported"
          reported_by := some "None" }
      users := []
      pendingDesc := [] }
    32 34.8 rfl rfl rfl).1 rfl rfl rfl rfl

/-- C4 counterexample: the invariant claimed equivalent to atomic clearing —
"whenever active is false all other event fields are cleared" — fails on a
reachable state: with no active event, a user presses the describe-event
button and then sends a text, leaving `active = false` with a non-null
`description`. -/
theorem c4_clear_invariant_counterexample :
    (let s0 : ServerState := { event := clearedEvent, users := [], pendingDesc := [] }
     let s1 := (telegram_webhook defaultConfig
       { message := some
           { chat := { id := some 7, first_name := some "Dana", last_name := none }
             text := some "📝 תיאור אירוע"
             location := none }
         edited_message := none } "t1" s0).2.1
     let s2 := (telegram_webhook defaultConfig
       { message := some
           { chat := { id := some 7, first_name := some "Dana", last_name := none }
             text := some "hello"
             location := none }
         edited_message := none } "t2" s1).2.1
     s2.event.active = false ∧ s2.event.description = some "hello") :=
  ⟨rfl, rfl⟩

/-- C4 (amended): `reset_event` clears every event field in the one
operation — afterwards `active = false` and every other field is
null/absent, independently of the prior state; however "active is false"
does not in general imply the other fields are clear (see the
counterexample: a pending description can be recorded while inactive). -/
theorem c4_reset_event_clears_every_field (e : Event) :
    reset_event e = clearedEvent ∧
    (reset_event e).active = false ∧
    (reset_event e).type = none ∧
    (reset_event e).level = none ∧
    (reset_event e).lat = none ∧
    (reset_event e).lon = none ∧
    (reset_event e).ts = none ∧
    (reset_event e).device_id = none ∧
    (reset_event e).reported_by = none ∧
    (reset_event e).reported_by_name = none ∧
    (reset_event e).reported_ts = none ∧
    (reset_event e).description = none ∧
    (∀ e2 : Event, reset_event e = reset_event e2) :=
  ⟨rfl, rfl, rfl, rfl, rfl, rfl, rfl, rfl, rfl, rfl, rfl, rfl, fun _ => rfl⟩

end AlertServer
